import Mathlib

/-!
A shallow embedding of the pysk8 driver core (files `pysk8/imu.py`,
`pysk8/extana.py` and the streaming-control portion of `pysk8/core.py`).

Conventions of the embedding:
* Python floats become `ℚ`; Python ints become `ℤ` (or `ℕ` for bitmask and
  index values).
* `time.time()` results are passed in explicitly as a `now : ℚ` argument to
  every operation that reads the clock.
* Python attributes that may not have been assigned yet (`gyro_offsets`,
  `mag_scale`, `mag_offsets` are only created by `load_calibration`) are
  modelled as `Option`; reading them when absent (an `AttributeError`) and
  the `IndexError` reachable in the window-pruning loop both surface as
  `none` from `IMUData.update`.
* The BLE transport is abstracted: characteristic availability is a set of
  boolean flags on the session state, attribute writes append to a `writes`
  log, and notification subscriptions are boolean flags.
-/

namespace PySK8

abbrev Vec3 := ℚ × ℚ × ℚ

/-- Python `int()` on a real number: truncation toward zero. -/
def pyInt (q : ℚ) : ℤ := if 0 ≤ q then ⌊q⌋ else ⌈q⌉

/-- `tuple(map(int, v))` for a 3-tuple, keeping the components as rationals. -/
def int3 (v : Vec3) : Vec3 := ((pyInt v.1 : ℚ), (pyInt v.2.1 : ℚ), (pyInt v.2.2 : ℚ))

/-- One section of the parsed calibration ini file, i.e. the
`calibration_data` mapping handed to `IMUData.load_calibration`.  The flag
`has_acc` models the presence of the `accx_offset` key, `has_gyro` that of
`gyrox_offset`, and `has_mag` that of `magx_offset`; the vectors give the
values stored under the corresponding scale/offset keys. -/
structure CalibData where
  has_acc : Bool
  acc_scale : Vec3
  acc_offsets : Vec3
  has_gyro : Bool
  gyro_offsets : Vec3
  has_mag : Bool
  mag_scale : Vec3
  mag_offsets : Vec3
deriving Repr, DecidableEq

/-- State of `pysk8.imu.IMUData`.  Field names follow the Python attributes;
Python's `_use_calibration`, `_packet_metadata`, `_packet_start`,
`_packets_lost`, `_calibration_data` and `_has_acc_calib` lose the leading
underscore (`_has_acc_calib`, which `reset` writes but nothing reads, becomes
`priv_has_acc_calib` to keep it distinct from `has_acc_calib`, the attribute
`load_calibration` writes). -/
structure IMUData where
  index : ℕ
  calibration_data : Option CalibData
  acc : Vec3
  mag : Vec3
  gyro : Vec3
  acc_scale : Vec3
  acc_offsets : Vec3
  gyro_offsets : Option Vec3
  mag_scale : Option Vec3
  mag_offsets : Option Vec3
  seq : ℤ
  use_calibration : Bool
  priv_has_acc_calib : Bool
  has_acc_calib : Bool
  has_mag_calib : Bool
  has_gyro_calib : Bool
  packet_metadata : List (ℚ × ℤ)
  packet_start : ℚ
  packets_lost : ℤ
  timestamp : ℚ
deriving Repr, DecidableEq

/-- `IMUData.PACKET_PERIOD`. -/
def PACKET_PERIOD : ℚ := 3

/-- `IMUData.load_calibration` (lines 58-86 of `imu.py`): returns the updated
state and the Python return value. -/
def IMUData.load_calibration (s : IMUData) (cd : Option CalibData) : IMUData × Bool :=
  match cd with
  | none => (s, false)
  | some d =>
    let s1 := if d.has_acc then
        { s with acc_scale := d.acc_scale, acc_offsets := d.acc_offsets, has_acc_calib := true }
      else
        { s with acc_scale := (1, 1, 1), acc_offsets := (0, 0, 0) }
    let s2 := if d.has_gyro then
        { s1 with gyro_offsets := some d.gyro_offsets, has_gyro_calib := true }
      else
        { s1 with gyro_offsets := some (0, 0, 0) }
    let s3 := if d.has_mag then
        { s2 with mag_scale := some d.mag_scale, mag_offsets := some d.mag_offsets, has_mag_calib := true }
      else
        -- the source assigns `self.mag_offsets = (1., 1., 1.)` and
        -- `self.mag_scale = (0, 0, 0)` in this branch (lines 82-83)
        { s2 with mag_offsets := some (1, 1, 1), mag_scale := some (0, 0, 0) }
    ({ s3 with use_calibration := true }, true)

/-- `IMUData.reset` (lines 23-35 of `imu.py`); `now` is the `time.time()`
value read on line 34. -/
def IMUData.reset (s : IMUData) (now : ℚ) : IMUData :=
  let s1 := { s with acc := (0, 0, 0), mag := (0, 0, 0), gyro := (0, 0, 0),
                     acc_scale := (1, 1, 1), acc_offsets := (0, 0, 0), seq := 0,
                     use_calibration := false,
                     priv_has_acc_calib := false, has_mag_calib := false,
                     has_gyro_calib := false }
  let s2 := (s1.load_calibration s1.calibration_data).1
  { s2 with packet_metadata := [], packet_start := now, packets_lost := 0 }

/-- `IMUData.__init__`: record the constructor arguments then `reset`. -/
def IMUData.init (index : ℕ) (cd : Option CalibData) (now : ℚ) : IMUData :=
  IMUData.reset
    { index := index, calibration_data := cd,
      acc := (0, 0, 0), mag := (0, 0, 0), gyro := (0, 0, 0),
      acc_scale := (1, 1, 1), acc_offsets := (0, 0, 0),
      gyro_offsets := none, mag_scale := none, mag_offsets := none,
      seq := 0, use_calibration := false,
      priv_has_acc_calib := false, has_acc_calib := false,
      has_mag_calib := false, has_gyro_calib := false,
      packet_metadata := [], packet_start := now, packets_lost := 0,
      timestamp := 0 } now

/-- `IMUData.get_sample_rate` (lines 37-40). -/
def IMUData.get_sample_rate (s : IMUData) (now : ℚ) : ℚ :=
  if now - s.packet_start < PACKET_PERIOD then -1
  else (s.packet_metadata.length : ℚ) / PACKET_PERIOD

/-- `IMUData.get_packets_lost` (lines 42-47). -/
def IMUData.get_packets_lost (s : IMUData) (now : ℚ) : ℤ :=
  if s.get_sample_rate now = -1 then -1
  else (s.packet_metadata.map Prod.snd).sum

/-- `IMUData.get_total_packets_lost`. -/
def IMUData.get_total_packets_lost (s : IMUData) : ℤ := s.packets_lost

/-- `IMUData.set_calibration`. -/
def IMUData.set_calibration (s : IMUData) (state : Bool) : IMUData :=
  { s with use_calibration := state }

/-- `IMUData.get_calibration`. -/
def IMUData.get_calibration (s : IMUData) : Bool := s.use_calibration

/-- `IMUData._get_cal` (lines 88-92). -/
def get_cal (raw offset scale : Vec3) (ignore_cal : Bool) : Vec3 :=
  if ignore_cal then raw
  else (raw.1 * scale.1 - offset.1,
        raw.2.1 * scale.2.1 - offset.2.1,
        raw.2.2 * scale.2.2 - offset.2.2)

/-- The `while` loop at the tail of `IMUData.update` (lines 114-115), viewed
on the REVERSED window list: Python repeatedly reads `_packet_metadata[-1]`
and pops it while it is older than `PACKET_PERIOD`; reading index `[-1]` of an
empty list raises `IndexError`, modelled as `none`. -/
def prune_rev (now : ℚ) : List (ℚ × ℤ) → Option (List (ℚ × ℤ))
  | [] => none
  | e :: rest =>
    if now - e.1 > PACKET_PERIOD then prune_rev now rest else some (e :: rest)

/-- The pruning loop on the window in its source order (newest entry first). -/
def prune_window (now : ℚ) (l : List (ℚ × ℤ)) : Option (List (ℚ × ℤ)) :=
  (prune_rev now l.reverse).map List.reverse

/-- Lines 95-102 of `IMUData.update`: the calibration application step.
When `_use_calibration` is false the raw triples pass through; otherwise the
calibrated triples are computed, reading the `gyro_offsets`, `mag_scale` and
`mag_offsets` attributes (`none`, i.e. `AttributeError`, if a prior
`load_calibration` never assigned them). -/
def IMUData.apply_calibration (s : IMUData) (acc gyro mag : Vec3) :
    Option (Vec3 × Vec3 × Vec3) :=
  if !s.use_calibration then
    some (acc, gyro, mag)
  else do
    let go ← s.gyro_offsets
    let ms ← s.mag_scale
    let mo ← s.mag_offsets
    some (int3 (get_cal acc s.acc_offsets s.acc_scale false),
          get_cal gyro go (1, 1, 1) false,
          int3 (get_cal mag mo ms false))

/-- Lines 104-109 of `IMUData.update`: the sequence-number bookkeeping.
Returns the `dropped` count for this packet and the updated value of the
`_packets_lost` counter. -/
def IMUData.count_dropped (s : IMUData) (seq : ℤ) : ℤ × ℤ :=
  if s.seq ≠ -1 then
    let expected := (s.seq + 1) % 256
    if expected ≠ seq then
      ((expected - seq) % 256, s.packets_lost + (expected - seq) % 256)
    else (0, s.packets_lost)
  else (0, s.packets_lost)

/-- `IMUData.update` (lines 94-115); `now` is the `time.time()` value read on
line 113.  A `none` result models an uncaught exception (`AttributeError`
from a calibration attribute never assigned, or `IndexError` from the pruning
loop). -/
def IMUData.update (s : IMUData) (acc gyro mag : Vec3) (seq : ℤ)
    (timestamp : ℚ) (now : ℚ) : Option IMUData := do
  let (acc', gyro', mag') ← s.apply_calibration acc gyro mag
  let (dropped, lost) := s.count_dropped seq
  let metadata ← prune_window now ((timestamp, dropped) :: s.packet_metadata)
  some { s with acc := acc', gyro := gyro', mag := mag',
                seq := seq, timestamp := timestamp,
                packets_lost := lost, packet_metadata := metadata }

/-- State of `pysk8.extana.ExtAnaData`. -/
structure ExtAnaData where
  ch1 : ℤ
  ch2 : ℤ
  temp : ℚ
  seq : ℤ
  timestamp : ℚ
deriving Repr, DecidableEq

/-- `ExtAnaData.__init__`. -/
def ExtAnaData.init : ExtAnaData :=
  { ch1 := 0, ch2 := 0, temp := 0, seq := 0, timestamp := 0 }

/-- `ExtAnaData.update` (lines 20-25 of `extana.py`). -/
def ExtAnaData.update (s : ExtAnaData) (ch1 ch2 temp seq : ℤ)
    (timestamp : ℚ) : ExtAnaData :=
  { s with ch1 := ch1, ch2 := ch2, temp := (temp : ℚ) / 100,
           seq := seq, timestamp := timestamp }

/-- Device-side registers written by the streaming-control paths of
`core.py` (the characteristics `UUID_IMU_SELECTION`, `UUID_SENSOR_SELECTION`,
`UUID_EXTANA_IMU_STREAMING` and its `_TMP` variant). -/
inductive Reg where
  | imu_selection
  | sensor_selection
  | extana_imu_streaming
  | extana_imu_streaming_tmp
deriving Repr, DecidableEq

/-- The portion of `pysk8.core.SK8` state that the streaming-control methods
touch.  `connected` models `_check_connected()`; the `has_*` flags model the
availability of the corresponding characteristic handles on the connected
device; `writes` logs every `_write_attribute` call (register, value);
`notify_imu` / `notify_extana` model the `start_notify` / `stop_notify`
subscription state of the two notification characteristics. -/
structure SK8 where
  connected : Bool
  imus : List IMUData
  extana_data : ExtAnaData
  enabled_imus : List ℕ
  enabled_sensors : ℕ
  notify_imu : Bool
  notify_extana : Bool
  has_imu_select : Bool
  has_sensor_select : Bool
  has_extana_stream : Bool
  has_extana_stream_tmp : Bool
  writes : List (Reg × ℕ)
deriving Repr, DecidableEq

/-- `SK8.enable_imu_streaming` (lines 419-469 of `core.py`): returns the
updated session state and the Python return value. -/
def SK8.enable_imu_streaming (s : SK8) (enabled_imus : List ℕ)
    (enabled_sensors : ℕ) : SK8 × Bool :=
  if !s.connected then (s, false) else
  let imus_enabled := enabled_imus.foldl (fun b i => b ||| (1 <<< i)) 0
  if enabled_sensors = 0 then (s, false) else
  if !s.has_imu_select || !s.has_sensor_select then (s, false) else
  ({ s with writes := s.writes ++ [(Reg.imu_selection, imus_enabled),
                                   (Reg.sensor_selection, enabled_sensors)],
            notify_imu := true,
            enabled_imus := enabled_imus,
            enabled_sensors := enabled_sensors }, true)

/-- `SK8.enable_extana_streaming` (lines 260-308 of `core.py`).  Note the
source calls `enable_imu_streaming([0], enabled_sensors)` unconditionally
(line 285) and ignores its return value. -/
def SK8.enable_extana_streaming (s : SK8) (include_imu : Bool)
    (enabled_sensors : ℕ) : SK8 × Bool :=
  if !s.connected then (s, false) else
  let s1 := (s.enable_imu_streaming [0] enabled_sensors).1
  if !s1.has_extana_stream && !s1.has_extana_stream_tmp then (s1, false) else
  let s2 := if s1.has_extana_stream then
      { s1 with writes := s1.writes ++ [(Reg.extana_imu_streaming, if include_imu then 1 else 0)] }
    else
      { s1 with writes := s1.writes ++ [(Reg.extana_imu_streaming_tmp, if include_imu then 1 else 0)] }
  let s3 := { s2 with notify_extana := true, enabled_sensors := enabled_sensors }
  let s4 := if include_imu then { s3 with enabled_imus := [0] } else s3
  (s4, true)

/-- `SK8.disable_imu_streaming` (lines 495-510 of `core.py`); `now` is the
`time.time()` value each `IMUData.reset` reads. -/
def SK8.disable_imu_streaming (s : SK8) (now : ℚ) : SK8 × Bool :=
  if !s.connected then (s, false) else
  ({ s with notify_imu := false,
            imus := s.imus.map (fun im => im.reset now) }, true)

/-- `SK8.disable_extana_streaming` (lines 310-326 of `core.py`). -/
def SK8.disable_extana_streaming (s : SK8) (now : ℚ) : SK8 × Bool :=
  if !s.connected then (s, false) else
  ({ s with notify_extana := false,
            imus := s.imus.map (fun im => im.reset now),
            enabled_imus := [] }, true)

/-- `SK8.get_enabled_imus`. -/
def SK8.get_enabled_imus (s : SK8) : List ℕ := s.enabled_imus

/-- `SK8.get_enabled_sensors`. -/
def SK8.get_enabled_sensors (s : SK8) : ℕ := s.enabled_sensors

/-! Concrete fixture states used by the theorems below. -/

/-- Calibration section holding accelerometer and gyroscope data but no
magnetometer data (no `magx_offset` key). -/
def cdNoMag : CalibData :=
  { has_acc := true, acc_scale := (1, 1, 1), acc_offsets := (0, 0, 0),
    has_gyro := true, gyro_offsets := (0, 0, 0),
    has_mag := false, mag_scale := (0, 0, 0), mag_offsets := (0, 0, 0) }

/-- An IMU that has loaded `cdNoMag`. -/
def imuNoMag : IMUData := ((IMUData.init 0 none 0).load_calibration (some cdNoMag)).1

/-- Full calibration section whose accelerometer x offset is -0.6, so that
`1*1 - (-0.6) = 1.6` sits between the truncated value 1 and the nearest
integer 2. -/
def cdFrac : CalibData :=
  { has_acc := true, acc_scale := (1, 1, 1), acc_offsets := (-3/5, 0, 0),
    has_gyro := true, gyro_offsets := (1/2, 0, 0),
    has_mag := true, mag_scale := (1, 1, 1), mag_offsets := (-3/5, 0, 0) }

/-- An IMU that has loaded `cdFrac`. -/
def imuFrac : IMUData := ((IMUData.init 0 none 0).load_calibration (some cdFrac)).1

/-- Calibration section with distinctive accelerometer coefficients, used to
observe what `reset` does to loaded coefficients. -/
def cdAcc2 : CalibData :=
  { has_acc := true, acc_scale := (2, 2, 2), acc_offsets := (3, 3, 3),
    has_gyro := true, gyro_offsets := (4, 4, 4),
    has_mag := true, mag_scale := (5, 5, 5), mag_offsets := (6, 6, 6) }

/-- An IMU constructed without constructor calibration data (as `SK8.__init__`
does) that then loaded `cdAcc2` (as `SK8.load_calibration` does). -/
def imuCal : IMUData := ((IMUData.init 0 none 0).load_calibration (some cdAcc2)).1

/-- An IMU whose last sequence number is 254. -/
def imu254 : IMUData := { IMUData.init 0 none 0 with seq := 254 }

/-- A connected session with every relevant characteristic available and IMU
streaming currently active for IMUs 1 and 2 (`notify_imu` subscribed,
`enabled_imus = [1, 2]`, sensor mask 7). -/
def sk8A : SK8 :=
  { connected := true, imus := [], extana_data := ExtAnaData.init,
    enabled_imus := [1, 2], enabled_sensors := 7,
    notify_imu := true, notify_extana := false,
    has_imu_select := true, has_sensor_select := true,
    has_extana_stream := true, has_extana_stream_tmp := false, writes := [] }

/-! ## Theorems -/

/-- Claim C1 (counterexample): in a connected session in which IMU streaming is
active (`sk8A`: notification subscription live, `enabled_imus = [1, 2]`),
`enable_extana_streaming` does NOT return a failure: it returns `True`,
overwrites `enabled_imus` (to `[0]`, via its unconditional internal
`enable_imu_streaming([0], ...)` call), and writes the device-side IMU and
sensor selection registers — refuting the claimed InvalidArgument failure
with unchanged state. -/
theorem enable_extana_during_imu_no_failure :
    (sk8A.enable_extana_streaming false 7).2 = true ∧
    (sk8A.enable_extana_streaming false 7).1.enabled_imus ≠ sk8A.enabled_imus ∧
    (sk8A.enable_extana_streaming false 7).1.writes ≠ sk8A.writes ∧
    (Reg.imu_selection, 1) ∈ (sk8A.enable_extana_streaming false 7).1.writes := by
  norm_num [sk8A, SK8.enable_extana_streaming, SK8.enable_imu_streaming]
  decide

/-- Claim C1 (amended): the code enforces no streaming exclusivity.  On any
connected session with the relevant characteristics available and a nonempty
sensor mask — whatever streaming mode is currently active —
`enable_extana_streaming` succeeds, first re-runs
`enable_imu_streaming([0], sensors)` (overwriting `enabled_imus` to `[0]` and
writing the IMU- and sensor-selection registers), then writes the ExtAna
streaming flag register and overwrites `enabled_sensors`. -/
theorem enable_extana_streaming_unconditional (s : SK8) (include_imu : Bool) (n : ℕ)
    (hc : s.connected = true) (h1 : s.has_imu_select = true)
    (h2 : s.has_sensor_select = true) (h3 : s.has_extana_stream = true)
    (hn : n ≠ 0) :
    (s.enable_extana_streaming include_imu n).2 = true ∧
    (s.enable_extana_streaming include_imu n).1.enabled_imus = [0] ∧
    (s.enable_extana_streaming include_imu n).1.enabled_sensors = n ∧
    (s.enable_extana_streaming include_imu n).1.writes =
      s.writes ++ [(Reg.imu_selection, 1), (Reg.sensor_selection, n),
                   (Reg.extana_imu_streaming, if include_imu then 1 else 0)] := by
  have hfold : ([0] : List ℕ).foldl (fun b i => b ||| (1 <<< i)) 0 = 1 := by decide
  cases include_imu <;>
    simp [SK8.enable_extana_streaming, SK8.enable_imu_streaming, hc, h1, h2, h3, hn, hfold]

/-- Claim C1 (witness). -/
theorem enable_extana_streaming_unconditional_witness :
    (sk8A.enable_extana_streaming false 7).2 = true ∧
    (sk8A.enable_extana_streaming false 7).1.enabled_imus = [0] ∧
    (sk8A.enable_extana_streaming false 7).1.enabled_sensors = 7 ∧
    (sk8A.enable_extana_streaming false 7).1.writes =
      sk8A.writes ++ [(Reg.imu_selection, 1), (Reg.sensor_selection, 7),
                      (Reg.extana_imu_streaming, if false then 1 else 0)] :=
  enable_extana_streaming_unconditional sk8A false 7 rfl rfl rfl rfl (by decide)

/-- Claim C2 (counterexample): with `last_seq = 254` a packet with `seq = 0` makes
the code add `(254 + 1 - 0) mod 256 = 255` dropped packets — not 1 as the
claim's example states (and symmetrically `last_seq = 10, seq = 10` yields 1,
not 255). -/
theorem dropped_examples_swapped :
    (IMUData.update imu254 (0, 0, 0) (0, 0, 0) (0, 0, 0) 0 0 0).map
        IMUData.packets_lost = some 255 ∧
    ((IMUData.update { IMUData.init 0 none 0 with seq := 10 }
        (0, 0, 0) (0, 0, 0) (0, 0, 0) 10 0 0).map IMUData.packets_lost = some 1) ∧
    (255 : ℤ) ≠ 1 := by
  norm_num [imu254, IMUData.init, IMUData.reset, IMUData.load_calibration, IMUData.update, IMUData.apply_calibration, IMUData.count_dropped, prune_window, prune_rev, PACKET_PERIOD, int3, get_cal, pyInt]

/-- Claim C3: the claim says a freshly constructed/reset `IMUData` counts zero
dropped packets on its first update whatever its sequence number; but `reset`
sets `self.seq = 0` while `update` tests for the sentinel `-1`, so the first
packet (here `seq = 5`) is charged `(0 + 1 - 5) mod 256 = 252` lost packets. -/
theorem first_update_after_reset_counts_loss :
    (IMUData.update (IMUData.init 0 none 0) (0, 0, 0) (0, 0, 0) (0, 0, 0) 5 0 0).map
        IMUData.packets_lost = some 252 ∧
    (IMUData.init 0 none 0).seq = 0 ∧ (252 : ℤ) ≠ 0 := by
  norm_num [IMUData.init, IMUData.reset, IMUData.load_calibration, IMUData.update, IMUData.apply_calibration, IMUData.count_dropped, prune_window, prune_rev, PACKET_PERIOD, int3, get_cal, pyInt]

/-- Claim C4: loading a calibration mapping that lacks the magnetometer section
does not skip magnetometer calibration: the missing-section branch assigns
`mag_offsets = (1,1,1)` and `mag_scale = (0,0,0)` (swapped relative to the
accelerometer branch) and enables calibration, so raw magnetometer values
`(100, 200, 300)` come out as `(-1, -1, -1)` instead of passing through. -/
theorem missing_mag_section_corrupts_output :
    imuNoMag.use_calibration = true ∧
    (IMUData.update imuNoMag (1, 2, 3) (4, 5, 6) (100, 200, 300) 1 0 0).map
        IMUData.mag = some (-1, -1, -1) ∧
    ((-1, -1, -1) : Vec3) ≠ (100, 200, 300) := by
  norm_num [imuNoMag, cdNoMag, IMUData.init, IMUData.reset, IMUData.load_calibration, IMUData.update, IMUData.apply_calibration, IMUData.count_dropped, prune_window, prune_rev, PACKET_PERIOD, int3, get_cal, pyInt]

/-- Claim C5 (counterexample): an IMU constructed without constructor calibration
data (the only way `SK8` constructs them) onto which the user loaded
coefficients (`acc_scale = (2,2,2)`) — leaving calibration enabled — loses
both the enabled flag and the accelerometer coefficients on `reset`:
`get_calibration` drops from `true` to `false` and `acc_scale` reverts to
`(1,1,1)`, refuting "calibration settings persist across streaming
toggles". -/
theorem reset_clears_calibration_flag :
    imuCal.get_calibration = true ∧ imuCal.acc_scale = (2, 2, 2) ∧
    (imuCal.reset 7).get_calibration = false ∧
    (imuCal.reset 7).acc_scale = (1, 1, 1) := by
  norm_num [imuCal, cdAcc2, IMUData.get_calibration, IMUData.init, IMUData.reset,
    IMUData.load_calibration]

/-- Claim C5 (amended): for an IMU without constructor-supplied calibration data,
`reset` (run by `disable_imu_streaming` on every IMU) clears the rolling
window, the cumulative loss counter and the sequence state, but it also
clears the calibration-enabled flag and resets the accelerometer
coefficients to identity; only the magnetometer and gyroscope coefficients
loaded earlier persist. -/
theorem reset_state_effects (s : IMUData) (now : ℚ)
    (h : s.calibration_data = none) :
    (s.reset now).packet_metadata = [] ∧
    (s.reset now).packets_lost = 0 ∧
    (s.reset now).seq = 0 ∧
    (s.reset now).packet_start = now ∧
    (s.reset now).use_calibration = false ∧
    (s.reset now).acc_scale = (1, 1, 1) ∧
    (s.reset now).acc_offsets = (0, 0, 0) ∧
    (s.reset now).mag_scale = s.mag_scale ∧
    (s.reset now).mag_offsets = s.mag_offsets ∧
    (s.reset now).gyro_offsets = s.gyro_offsets := by
  simp [IMUData.reset, IMUData.load_calibration, h]

/-- Claim C5 (witness). -/
theorem reset_state_effects_witness :
    (imuCal.reset 7).packet_metadata = [] ∧
    (imuCal.reset 7).packets_lost = 0 ∧
    (imuCal.reset 7).seq = 0 ∧
    (imuCal.reset 7).packet_start = 7 ∧
    (imuCal.reset 7).use_calibration = false ∧
    (imuCal.reset 7).acc_scale = (1, 1, 1) ∧
    (imuCal.reset 7).acc_offsets = (0, 0, 0) ∧
    (imuCal.reset 7).mag_scale = imuCal.mag_scale ∧
    (imuCal.reset 7).mag_offsets = imuCal.mag_offsets ∧
    (imuCal.reset 7).gyro_offsets = imuCal.gyro_offsets :=
  reset_state_effects imuCal 7 rfl

/-- Claim C6: on a connected session, `enable_imu_streaming([1,2], 7)` followed by
a successful `disable_imu_streaming()` leaves `get_enabled_imus()` returning
`[1, 2]`, not the empty list the claim requires (`disable_imu_streaming`
never clears `_enabled_imus`; only `disable_extana_streaming` does). -/
theorem disable_imu_streaming_keeps_enabled_imus :
    (((sk8A.enable_imu_streaming [1, 2] 7).1.disable_imu_streaming 5).2 = true) ∧
    ((sk8A.enable_imu_streaming [1, 2] 7).1.disable_imu_streaming 5).1.get_enabled_imus
      = [1, 2] ∧
    ([1, 2] : List ℕ) ≠ [] := by
  norm_num [sk8A, SK8.enable_imu_streaming, SK8.disable_imu_streaming,
    SK8.get_enabled_imus]
  decide

/-- Claim C7 (counterexample): `ExtAnaData.update` retains no loss information at
all.  Two packet histories — sequence numbers 4 then 6 (one packet dropped)
versus 5 then 6 (no loss) — produce bit-for-bit identical `ExtAnaData`
states, so no comparison with the previous sequence number is accumulated
anywhere, refuting the claimed running loss total. -/
theorem extana_update_forgets_previous_seq :
    ExtAnaData.update (ExtAnaData.update ExtAnaData.init 0 0 0 4 0) 1 1 150 6 1 =
      ExtAnaData.update (ExtAnaData.update ExtAnaData.init 0 0 0 5 0) 1 1 150 6 1 ∧
    (ExtAnaData.update (ExtAnaData.update ExtAnaData.init 0 0 0 4 0) 1 1 150 6 1).seq
      = 6 := by
  norm_num [ExtAnaData.init, ExtAnaData.update]

/-- Claim C7 (amended): `ExtAnaData.update` merely overwrites `ch1`, `ch2`,
`temp` (scaled by 1/100), `seq` and `timestamp` with the new packet's values;
its result is independent of the previous state, so no last-seq comparison
and no loss accumulation of any kind takes place. -/
theorem extana_update_overwrites_all (s : ExtAnaData) (ch1 ch2 temp seq : ℤ)
    (t : ℚ) :
    ExtAnaData.update s ch1 ch2 temp seq t =
      { ch1 := ch1, ch2 := ch2, temp := (temp : ℚ) / 100,
        seq := seq, timestamp := t } := rfl

/-- Claim C7 (amended, witness). -/
theorem extana_update_overwrites_all_witness :
    ExtAnaData.update ExtAnaData.init 3 4 150 9 2 =
      { ch1 := 3, ch2 := 4, temp := (150 : ℚ) / 100, seq := 9, timestamp := 2 } :=
  extana_update_overwrites_all ExtAnaData.init 3 4 150 9 2

/-- Claim C9: `get_sample_rate` returns the `-1` sentinel exactly while less than
the 3-second `PACKET_PERIOD` has elapsed since `packet_start` (tracker start
or reset), and `len(window)/3` afterwards; `get_packets_lost` follows the
same warm-up condition, returning the sum of the dropped counts over the
current window entries once the period has elapsed. -/
theorem warmup_sentinel_then_stats (s : IMUData) (now : ℚ) :
    s.get_sample_rate now =
      (if now - s.packet_start < PACKET_PERIOD then -1
       else (s.packet_metadata.length : ℚ) / PACKET_PERIOD) ∧
    s.get_packets_lost now =
      (if now - s.packet_start < PACKET_PERIOD then -1
       else (s.packet_metadata.map Prod.snd).sum) := by
  constructor
  · rfl
  · rw [IMUData.get_packets_lost, IMUData.get_sample_rate]
    by_cases h : now - s.packet_start < PACKET_PERIOD
    · simp [h]
    · have hnn : (0 : ℚ) ≤ (s.packet_metadata.length : ℚ) / PACKET_PERIOD := by
        refine div_nonneg (Nat.cast_nonneg _) ?_
        norm_num [PACKET_PERIOD]
      have : ¬ ((s.packet_metadata.length : ℚ) / PACKET_PERIOD = -1) := by
        intro he
        rw [he] at hnn
        norm_num at hnn
      simp [h, this]

/-! ### Helper lemmas about `IMUData.update` and the pruning loop -/

/-- When calibration is disabled the calibration step passes raw data
through. -/
theorem apply_calibration_raw (s : IMUData) (acc gyro mag : Vec3)
    (h : s.use_calibration = false) :
    s.apply_calibration acc gyro mag = some (acc, gyro, mag) := by
  simp [IMUData.apply_calibration, h]

/-- When calibration is enabled and all coefficient attributes exist, the
calibration step computes the transformed triples. -/
theorem apply_calibration_cal (s : IMUData) (acc gyro mag go ms mo : Vec3)
    (h : s.use_calibration = true) (hgo : s.gyro_offsets = some go)
    (hms : s.mag_scale = some ms) (hmo : s.mag_offsets = some mo) :
    s.apply_calibration acc gyro mag =
      some (int3 (get_cal acc s.acc_offsets s.acc_scale false),
            get_cal gyro go (1, 1, 1) false,
            int3 (get_cal mag mo ms false)) := by
  simp [IMUData.apply_calibration, h, hgo, hms, hmo]

/-- Unfolding of `IMUData.update` once the results of its three internal
steps are known. -/
theorem update_unfold (s : IMUData) (acc gyro mag : Vec3) (seq : ℤ)
    (ts now : ℚ) (a g m : Vec3)
    (hv : s.apply_calibration acc gyro mag = some (a, g, m))
    (d lo : ℤ) (hdl : s.count_dropped seq = (d, lo))
    (w : List (ℚ × ℤ))
    (hw : prune_window now ((ts, d) :: s.packet_metadata) = some w) :
    s.update acc gyro mag seq ts now =
      some { s with acc := a, gyro := g, mag := m, seq := seq, timestamp := ts,
                    packets_lost := lo, packet_metadata := w } := by
  simp [IMUData.update, hv, hdl, hw]

/-- If the last element of a list sorted by ascending timestamp is within
the period, the pruning pass succeeds, keeps a nonempty suffix, and every
kept entry is within the period. -/
theorem prune_rev_some (now : ℚ) (r : List (ℚ × ℤ)) :
    ∀ x : ℚ × ℤ, r.getLast? = some x → now - x.1 ≤ PACKET_PERIOD →
      List.Pairwise (fun a b : ℚ × ℤ => a.1 ≤ b.1) r →
      ∃ r', prune_rev now r = some r' ∧ r' ≠ [] ∧
        ∀ e ∈ r', now - e.1 ≤ PACKET_PERIOD := by
  induction r with
  | nil => intro x hx; simp at hx
  | cons a t ih =>
    intro x hx hfresh hpair
    by_cases hstale : now - a.1 > PACKET_PERIOD
    · cases t with
      | nil =>
        simp [List.getLast?] at hx
        rw [← hx] at hfresh
        exact absurd hfresh (by linarith)
      | cons b t2 =>
        rw [List.getLast?_cons_cons] at hx
        obtain ⟨r', h1, h2, h3⟩ := ih x hx hfresh hpair.of_cons
        refine ⟨r', ?_, h2, h3⟩
        rw [prune_rev, if_pos hstale]
        exact h1
    · refine ⟨a :: t, by rw [prune_rev, if_neg hstale], by simp, ?_⟩
      intro e he
      rcases List.mem_cons.mp he with rfl | he'
      · linarith [not_lt.mp hstale]
      · have hrel := List.rel_of_pairwise_cons hpair he'
        have h4 := not_lt.mp hstale
        linarith

/-- Inserting a fresh entry at the head of a window sorted newest-first and
pruning always succeeds, keeps at least the new entry, and leaves only
entries within the period. -/
theorem prune_window_spec (now ts : ℚ) (d : ℤ) (l : List (ℚ × ℤ))
    (hfresh : now - ts ≤ PACKET_PERIOD)
    (hle : ∀ e ∈ l, e.1 ≤ ts)
    (hpair : List.Pairwise (fun a b : ℚ × ℤ => b.1 ≤ a.1) l) :
    ∃ w, prune_window now ((ts, d) :: l) = some w ∧ w ≠ [] ∧
      ∀ e ∈ w, now - e.1 ≤ PACKET_PERIOD := by
  have hpair' :
      List.Pairwise (fun a b : ℚ × ℤ => a.1 ≤ b.1) ((ts, d) :: l).reverse := by
    rw [List.pairwise_reverse]
    exact List.Pairwise.cons (fun e he => hle e he) hpair
  have hlast : ((ts, d) :: l).reverse.getLast? = some (ts, d) := by
    rw [List.getLast?_reverse]
    rfl
  obtain ⟨r', h1, h2, h3⟩ :=
    prune_rev_some now ((ts, d) :: l).reverse (ts, d) hlast hfresh hpair'
  refine ⟨r'.reverse, ?_, by simpa using h2, ?_⟩
  · simp only [prune_window]
    rw [h1]
    rfl
  · intro e he
    exact h3 e (List.mem_reverse.mp he)

/-- Claim C2 (amended): for every `last_seq, seq ∈ [0,255]` with
`seq ≠ (last_seq+1) mod 256`, `update` adds `(last_seq+1-seq) mod 256` both
to the lifetime-lost counter and to the new window entry; in particular
`last_seq=254, seq=0` yields `dropped = 255` and `last_seq=10, seq=10`
yields `dropped = 1` (the two example values in the claim are swapped). -/
theorem dropped_formula (s : IMUData) (acc gyro mag : Vec3) (last seq : ℤ)
    (t now : ℚ)
    (hs : s.seq = last) (h0 : 0 ≤ last) (h1 : last ≤ 255)
    (h2 : 0 ≤ seq) (h3 : seq ≤ 255) (hne : seq ≠ (last + 1) % 256)
    (hcal : s.use_calibration = false) (hwin : s.packet_metadata = [])
    (hfresh : now - t ≤ PACKET_PERIOD) :
    ∃ s', s.update acc gyro mag seq t now = some s' ∧
      s'.packets_lost = s.packets_lost + (last + 1 - seq) % 256 ∧
      s'.packet_metadata = [(t, (last + 1 - seq) % 256)] := by
  have e1 : last ≠ -1 := by omega
  have e2 : (last + 1) % 256 ≠ seq := by omega
  have hkey : ((last + 1) % 256 - seq) % 256 = (last + 1 - seq) % 256 := by
    omega
  have hdl : s.count_dropped seq =
      ((last + 1 - seq) % 256, s.packets_lost + (last + 1 - seq) % 256) := by
    rw [IMUData.count_dropped, hs]
    rw [if_pos e1, if_pos e2, hkey]
  have hw : prune_window now ((t, (last + 1 - seq) % 256) :: s.packet_metadata)
      = some [(t, (last + 1 - seq) % 256)] := by
    rw [hwin]
    simp [prune_window, prune_rev, if_neg (not_lt.mpr hfresh)]
  exact ⟨_, update_unfold s acc gyro mag seq t now acc gyro mag
    (apply_calibration_raw s acc gyro mag hcal) _ _ hdl _ hw, by simp, by simp⟩

/-- Claim C2 (witness). -/
theorem dropped_formula_witness :
    ∃ s', imu254.update (0, 0, 0) (0, 0, 0) (0, 0, 0) 0 0 0 = some s' ∧
      s'.packets_lost = imu254.packets_lost + (254 + 1 - 0) % 256 ∧
      s'.packet_metadata = [(0, (254 + 1 - 0) % 256)] :=
  dropped_formula imu254 (0, 0, 0) (0, 0, 0) (0, 0, 0) 254 0 0 0
    (by norm_num [imu254, IMUData.init, IMUData.reset, IMUData.load_calibration])
    (by norm_num) (by norm_num) (by norm_num) (by norm_num) (by norm_num)
    (by norm_num [imu254, IMUData.init, IMUData.reset, IMUData.load_calibration])
    (by norm_num [imu254, IMUData.init, IMUData.reset, IMUData.load_calibration])
    (by norm_num [PACKET_PERIOD])

/-- Claim C8 (amended): in a calibrated update, accelerometer and magnetometer
components are TRUNCATED TOWARD ZERO (Python `int()`) after
`raw*scale - offset`, not rounded to the nearest integer; the gyroscope
result `raw - offset` is left as a (possibly fractional) float. -/
theorem calibrated_values_truncated (s : IMUData) (go ms mo : Vec3)
    (acc gyro mag : Vec3) (seq : ℤ) (t now : ℚ)
    (hu : s.use_calibration = true) (hgo : s.gyro_offsets = some go)
    (hms : s.mag_scale = some ms) (hmo : s.mag_offsets = some mo)
    (hwin : s.packet_metadata = []) (hfresh : now - t ≤ PACKET_PERIOD) :
    ∃ s', s.update acc gyro mag seq t now = some s' ∧
      s'.acc = ((pyInt (acc.1 * s.acc_scale.1 - s.acc_offsets.1) : ℚ),
                (pyInt (acc.2.1 * s.acc_scale.2.1 - s.acc_offsets.2.1) : ℚ),
                (pyInt (acc.2.2 * s.acc_scale.2.2 - s.acc_offsets.2.2) : ℚ)) ∧
      s'.gyro = (gyro.1 - go.1, gyro.2.1 - go.2.1, gyro.2.2 - go.2.2) ∧
      s'.mag = ((pyInt (mag.1 * ms.1 - mo.1) : ℚ),
                (pyInt (mag.2.1 * ms.2.1 - mo.2.1) : ℚ),
                (pyInt (mag.2.2 * ms.2.2 - mo.2.2) : ℚ)) := by
  rcases hdl : s.count_dropped seq with ⟨d, lo⟩
  have hw : prune_window now ((t, d) :: s.packet_metadata) = some [(t, d)] := by
    rw [hwin]
    simp [prune_window, prune_rev, if_neg (not_lt.mpr hfresh)]
  refine ⟨_, update_unfold s acc gyro mag seq t now _ _ _
    (apply_calibration_cal s acc gyro mag go ms mo hu hgo hms hmo)
    d lo hdl _ hw, ?_, ?_, ?_⟩ <;>
    simp [int3, get_cal]

/-- Claim C8 (witness). -/
theorem calibrated_values_truncated_witness :
    ∃ s', imuFrac.update (1, 0, 0) (1, 0, 0) (1, 0, 0) 1 0 0 = some s' ∧
      s'.acc = ((pyInt ((1 : ℚ) * imuFrac.acc_scale.1 - imuFrac.acc_offsets.1) : ℚ),
                (pyInt ((0 : ℚ) * imuFrac.acc_scale.2.1 - imuFrac.acc_offsets.2.1) : ℚ),
                (pyInt ((0 : ℚ) * imuFrac.acc_scale.2.2 - imuFrac.acc_offsets.2.2) : ℚ)) ∧
      s'.gyro = ((1 : ℚ) - 1/2, (0 : ℚ) - 0, (0 : ℚ) - 0) ∧
      s'.mag = ((pyInt ((1 : ℚ) * 1 - (-3/5)) : ℚ),
                (pyInt ((0 : ℚ) * 1 - 0) : ℚ), (pyInt ((0 : ℚ) * 1 - 0) : ℚ)) :=
  calibrated_values_truncated imuFrac (1/2, 0, 0) (1, 1, 1) (-3/5, 0, 0)
    (1, 0, 0) (1, 0, 0) (1, 0, 0) 1 0 0
    (by norm_num [imuFrac, cdFrac, IMUData.init, IMUData.reset, IMUData.load_calibration])
    (by norm_num [imuFrac, cdFrac, IMUData.init, IMUData.reset, IMUData.load_calibration])
    (by norm_num [imuFrac, cdFrac, IMUData.init, IMUData.reset, IMUData.load_calibration])
    (by norm_num [imuFrac, cdFrac, IMUData.init, IMUData.reset, IMUData.load_calibration])
    (by norm_num [imuFrac, cdFrac, IMUData.init, IMUData.reset, IMUData.load_calibration])
    (by norm_num [PACKET_PERIOD])

/-- Claim C8 (counterexample): with accelerometer calibration
`scale = 1, offset = -0.6`, a raw x value of 1 calibrates to `1.6`; the code
stores `int(1.6) = 1` while rounding to the nearest integer would give 2, so
the "rounded to the nearest integer" part of the claim is false. -/
theorem calibrated_acc_not_rounded_to_nearest :
    (imuFrac.update (1, 0, 0) (1, 0, 0) (1, 0, 0) 1 0 0).map IMUData.acc =
      some (1, 0, 0) ∧
    round ((1 : ℚ) * 1 - (-3/5)) = (2 : ℤ) ∧ ((1 : ℚ) ≠ ((2 : ℤ) : ℚ)) := by
  refine ⟨?_, by norm_num [round_eq], by norm_num⟩
  norm_num [imuFrac, cdFrac, IMUData.init, IMUData.reset,
    IMUData.load_calibration, IMUData.update, IMUData.apply_calibration,
    IMUData.count_dropped, prune_window, prune_rev, PACKET_PERIOD, int3,
    get_cal, pyInt]

/-- Claim C10: (a) whenever the timestamp of the packet being inserted is no older
than `PACKET_PERIOD` relative to `now` and the existing window is sorted
newest-first (the invariant the code maintains), `update` succeeds — the
pruning loop terminates without the `IndexError` — and leaves a nonempty
window all of whose entries are within the period (the calibration
attributes must exist whenever calibration is enabled, or the earlier
calibration step would already fail); (b) with a stale timestamp the pruning
loop empties the window and crashes: a fresh IMU updated with
`timestamp = 0` at `now = 10` fails. -/
theorem update_prune_safety :
    (∀ (s : IMUData) (acc gyro mag : Vec3) (seq : ℤ) (ts now : ℚ),
      (s.use_calibration = true →
        s.gyro_offsets ≠ none ∧ s.mag_scale ≠ none ∧ s.mag_offsets ≠ none) →
      now - ts ≤ PACKET_PERIOD →
      (∀ e ∈ s.packet_metadata, e.1 ≤ ts) →
      List.Pairwise (fun a b : ℚ × ℤ => b.1 ≤ a.1) s.packet_metadata →
      ∃ s', s.update acc gyro mag seq ts now = some s' ∧
        s'.packet_metadata ≠ [] ∧
        ∀ e ∈ s'.packet_metadata, now - e.1 ≤ PACKET_PERIOD) ∧
    IMUData.update (IMUData.init 0 none 0) (0, 0, 0) (0, 0, 0) (0, 0, 0) 0 0 10
      = none := by
  constructor
  · intro s acc gyro mag seq ts now hcal hfresh hle hpair
    obtain ⟨a, g, m, hv⟩ :
        ∃ a g m, s.apply_calibration acc gyro mag = some (a, g, m) := by
      cases hu : s.use_calibration with
      | false => exact ⟨acc, gyro, mag, apply_calibration_raw s acc gyro mag hu⟩
      | true =>
        obtain ⟨hg, hm1, hm2⟩ := hcal hu
        obtain ⟨go, hgo⟩ := Option.ne_none_iff_exists'.mp hg
        obtain ⟨ms, hms⟩ := Option.ne_none_iff_exists'.mp hm1
        obtain ⟨mo, hmo⟩ := Option.ne_none_iff_exists'.mp hm2
        exact ⟨_, _, _, apply_calibration_cal s acc gyro mag go ms mo hu hgo hms hmo⟩
    rcases hdl : s.count_dropped seq with ⟨d, lo⟩
    obtain ⟨w, hw, hne, hages⟩ :=
      prune_window_spec now ts d s.packet_metadata hfresh hle hpair
    refine ⟨_, update_unfold s acc gyro mag seq ts now a g m hv d lo hdl w hw,
      by simpa using hne, by simpa using hages⟩
  · norm_num [IMUData.init, IMUData.reset, IMUData.load_calibration,
      IMUData.update, IMUData.apply_calibration, IMUData.count_dropped,
      prune_window, prune_rev, PACKET_PERIOD]

/-- Claim C10 (witness for part (a)). -/
theorem update_prune_safety_witness :
    ∃ s', (IMUData.init 0 none 0).update (0, 0, 0) (0, 0, 0) (0, 0, 0) 5 0 0
        = some s' ∧
      s'.packet_metadata ≠ [] ∧
      ∀ e ∈ s'.packet_metadata, (0 : ℚ) - e.1 ≤ PACKET_PERIOD :=
  update_prune_safety.1 (IMUData.init 0 none 0) (0, 0, 0) (0, 0, 0) (0, 0, 0)
    5 0 0
    (by intro h
        norm_num [IMUData.init, IMUData.reset, IMUData.load_calibration] at h)
    (by norm_num [PACKET_PERIOD])
    (by norm_num [IMUData.init, IMUData.reset, IMUData.load_calibration])
    (by norm_num [IMUData.init, IMUData.reset, IMUData.load_calibration])

end PySK8
